import Mathlib

/-!
Shallow embedding of a browser collage / slideshow compositor, consisting of a
standalone collage editor (CollageGenerator) and an embedded timeline renderer
(VideoPreview).  JS numbers are modelled as rationals.  The transcendental or
random host primitives (Math.cos, Math.sin, Math.atan2, Math.random) are passed
in as explicit function parameters, so every definition stays executable and
theorems can quantify over all interpretations of those primitives.
-/

/-- JS truthiness fallback for numbers: the expression x || d yields d when x is
absent or 0, and x otherwise. -/
def jsOr (x : Option ℚ) (d : ℚ) : ℚ :=
  match x with
  | none => d
  | some v => if v = 0 then d else v

/-- JS remainder a % b for nonnegative a and positive b (used for clock wrap). -/
def jsMod (a b : ℚ) : ℚ := a - b * (⌊a / b⌋ : ℤ)

/-- Kind tag of a collage canvas item (the source field item.type). -/
inductive ItemType
  | image
  | text
  | effect
deriving DecidableEq, Repr

/-- Decoration animation kind (the source field item.animationType). -/
inductive AnimationType
  | REC_FRAME
  | RED_CIRCLE
  | LOCATION_PIN
  | TAPE
  | BULB_LINE
  | HEART_LINE
deriving DecidableEq, Repr

/-- One positioned item of the collage canvas, the numeric and kind fields of
the source RenderCanvasItem that the geometry, hit-test and interaction code
reads. -/
structure CanvasItem where
  id : String
  type : ItemType
  x : ℚ
  y : ℚ
  width : ℚ
  height : ℚ
  scale : ℚ
  rotation : ℚ
  zIndex : ℚ
  imgOffsetX : ℚ
  imgOffsetY : ℚ
  imgZoom : ℚ
  backgroundColor : Option String
  backgroundPadding : Option ℚ
deriving DecidableEq, Repr

/-- Padding used by the collage editor drawFrame forward transform: the source
sets p only when item.type is text AND item.backgroundColor is truthy
(drawFrame, part_000 lines 272-275). -/
def drawFramePad (it : CanvasItem) : ℚ :=
  if it.type = ItemType.text ∧ it.backgroundColor.isSome then
    it.backgroundPadding.getD 0
  else 0

/-- Padding used by the collage editor handleMouseDown inverse transform: the
source sets p for every text item, with no backgroundColor check
(handleMouseDown, part_000 lines 501 and 536). -/
def handleMouseDownPad (it : CanvasItem) : ℚ :=
  if it.type = ItemType.text then it.backgroundPadding.getD 0 else 0

/-- Forward drawing transform of drawFrame (part_000 lines 277-289): the world
position of a point given in the local box space in which the item is drawn,
where mc and ms interpret Math.cos and Math.sin.  The canvas pipeline is
translate(cx,cy); rotate(rotation); scale(scale,scale); translate(-halfW,-halfH). -/
def drawFrameToWorld (mc ms : ℚ → ℚ) (it : CanvasItem) (l : ℚ × ℚ) : ℚ × ℚ :=
  let p := drawFramePad it
  let halfW := (it.width + p * 2) / 2
  let halfH := (it.height + p * 2) / 2
  let cx := it.x + halfW * it.scale
  let cy := it.y + halfH * it.scale
  let c := mc it.rotation
  let s := ms it.rotation
  let sx := it.scale * (l.1 - halfW)
  let sy := it.scale * (l.2 - halfH)
  (cx + (c * sx - s * sy), cy + (s * sx + c * sy))

/-- Inverse transform of handleMouseDown (part_000 lines 501-516): local box
coordinates (localX, localY) of a world point, where mc and ms interpret
Math.cos and Math.sin.  The source computes
localDx = dx * Math.cos(-angle) - dy * Math.sin(-angle),
localDy = dx * Math.sin(-angle) + dy * Math.cos(-angle)
and then adds back the (scaled) half extents. -/
def handleMouseDownLocal (mc ms : ℚ → ℚ) (it : CanvasItem) (pos : ℚ × ℚ) : ℚ × ℚ :=
  let p := handleMouseDownPad it
  let totalW := (it.width + p * 2) * it.scale
  let totalH := (it.height + p * 2) * it.scale
  let halfW := totalW / 2
  let halfH := totalH / 2
  let cx := it.x + halfW
  let cy := it.y + halfH
  let dx := pos.1 - cx
  let dy := pos.2 - cy
  let c := mc (-it.rotation)
  let s := ms (-it.rotation)
  let localDx := dx * c - dy * s
  let localDy := dx * s + dy * c
  (localDx + halfW, localDy + halfH)

/-- Concrete item exhibiting the padding divergence: a text item whose
background box has been toggled off (backgroundColor cleared) while its
backgroundPadding of 10 is retained, exactly the state the editor UI produces. -/
def padBugItem : CanvasItem :=
  { id := "title"
    type := ItemType.text
    x := 0
    y := 0
    width := 100
    height := 50
    scale := 1
    rotation := 3
    zIndex := 0
    imgOffsetX := 0
    imgOffsetY := 0
    imgZoom := 1
    backgroundColor := none
    backgroundPadding := some 10 }

/-- Cosine interpretation for a rotation of pi radians (cos is even and equals
-1 at the rotation of padBugItem). -/
def cosPi : ℚ → ℚ := fun _ => -1

/-- Sine interpretation for a rotation of pi radians (sin is odd and equals 0
at the rotation of padBugItem). -/
def sinPi : ℚ → ℚ := fun _ => 0

/-! ## Timeline engine: clock-to-slide lookup (VideoPreview drawFrame) -/

/-- Kind of a timeline slide. -/
inductive MediaType
  | image
  | video
deriving DecidableEq, Repr

/-- Transition effect attached to a slide (the source enum TransitionType). -/
inductive TransitionType
  | FADE
  | SLIDE_LEFT
  | SLIDE_RIGHT
  | SLIDE_UP
  | SLIDE_DOWN
  | ZOOM_IN
  | ZOOM_OUT
deriving DecidableEq, Repr

/-- One timeline entry, the fields of the source UploadedMedia that the
renderer and audio builder read. -/
structure MediaItem where
  id : String
  type : MediaType
  duration : Option ℚ
  enableOriginalAudio : Bool
  missing : Bool
  transition : Option TransitionType
  hasCollageData : Bool
  fileName : Option String
deriving DecidableEq, Repr

/-- Duration of one slide in milliseconds, as computed throughout VideoPreview:
(m.type === video ? (m.duration || 5) : settings.photoDuration) * 1000. -/
def slideDurationMs (photoDuration : ℚ) (m : MediaItem) : ℚ :=
  (match m.type with
   | MediaType.video => jsOr m.duration 5
   | MediaType.image => photoDuration) * 1000

/-- The slide-location for-loop of drawFrame (VideoPreview lines 227-239):
walks the duration list accumulating currentSlideStart; on a hit returns
(slideIndex, slideDuration, currentSlideStart); with no hit the JS defaults
slideIndex = 0, slideDuration = 0 survive and currentSlideStart has been
advanced past every slide. -/
def findSlideAux : List ℚ → ℕ → ℚ → ℚ → ℕ × ℚ × ℚ
  | [], _, start, _ => (0, 0, start)
  | d :: rest, i, start, t =>
      if start ≤ t ∧ t < start + d then (i, d, start)
      else findSlideAux rest (i + 1) (start + d) t

/-- Clock-to-slide lookup: slide index, slide duration and slide start time for
a global clock value, over a list of slide durations in milliseconds. -/
def findSlide (durations : List ℚ) (loopTime : ℚ) : ℕ × ℚ × ℚ :=
  findSlideAux durations 0 0 loopTime

/-- Effective transition window (VideoPreview line 245):
min(transitionDuration in ms, slideDuration). -/
def effectiveTransitionDuration (transitionDurationMs slideDuration : ℚ) : ℚ :=
  min transitionDurationMs slideDuration

/-- Start of the transition window inside a slide (VideoPreview line 696):
max(0, slideDuration - effectiveTransitionDuration). -/
def transitionStart (transitionDurationMs slideDuration : ℚ) : ℚ :=
  max 0 (slideDuration - effectiveTransitionDuration transitionDurationMs slideDuration)

/-! ## Transition dispatch (VideoPreview drawFrame lines 714-755) -/

/-- Which of the two slides a renderMedia call targets. -/
inductive SlideRef
  | current
  | next
deriving DecidableEq, Repr

/-- One renderMedia invocation: target slide, alpha, scale and offsets. -/
structure RenderCall where
  target : SlideRef
  alpha : ℚ
  scale : ℚ
  offsetX : ℚ
  offsetY : ℚ
deriving DecidableEq, Repr

/-- Clamp of the transition progress (VideoPreview line 717):
Math.max(0, Math.min(1, transProgress)). -/
def clamp01 (x : ℚ) : ℚ := max 0 (min 1 x)

/-- Zoom scale of a slide (VideoPreview lines 699-703). -/
def getZoomScale (type : TransitionType) (progress0to1 : ℚ) : ℚ :=
  if type = TransitionType.ZOOM_IN then 1 + progress0to1 * (15 / 100)
  else if type = TransitionType.ZOOM_OUT then 115 / 100 - progress0to1 * (15 / 100)
  else 1

/-- The transition-phase dispatch of drawFrame (VideoPreview lines 727-755):
the ordered sequence of renderMedia calls issued for clamped progress t, frame
size canvasW by canvasH, and the outgoing slide zoom currentScale.  The
incoming slide scale is fixed to 1 (nextScale, line 727). -/
def transitionCalls (tt : TransitionType) (t currentScale canvasW canvasH : ℚ) :
    List RenderCall :=
  match tt with
  | TransitionType.SLIDE_LEFT =>
      [⟨SlideRef.current, 1, currentScale, -t * canvasW, 0⟩,
       ⟨SlideRef.next, 1, 1, (1 - t) * canvasW, 0⟩]
  | TransitionType.SLIDE_RIGHT =>
      [⟨SlideRef.current, 1, currentScale, t * canvasW, 0⟩,
       ⟨SlideRef.next, 1, 1, -((1 - t) * canvasW), 0⟩]
  | TransitionType.SLIDE_UP =>
      [⟨SlideRef.current, 1, currentScale, 0, -t * canvasH⟩,
       ⟨SlideRef.next, 1, 1, 0, (1 - t) * canvasH⟩]
  | TransitionType.SLIDE_DOWN =>
      [⟨SlideRef.current, 1, currentScale, 0, t * canvasH⟩,
       ⟨SlideRef.next, 1, 1, 0, -((1 - t) * canvasH)⟩]
  | _ =>
      [⟨SlideRef.current, 1, currentScale, 0, 0⟩,
       ⟨SlideRef.next, t, 1, 0, 0⟩]

/-! ## Collage editor pointer-move interaction (part_000 handleMouseMove) -/

/-- Interaction mode of the collage editor. -/
inductive InteractionMode
  | NONE
  | MOVE
  | ROTATE
  | RESIZE
  | CROP_PAN
  | CROP_TL
  | CROP_TR
  | CROP_BL
  | CROP_BR
deriving DecidableEq, Repr

/-- Snapshot taken at pointer-down (the source initialItemState: a copy of the
item plus startRotation and startAngle). -/
structure DragInit where
  x : ℚ
  y : ℚ
  width : ℚ
  height : ℚ
  scale : ℚ
  imgOffsetX : ℚ
  imgOffsetY : ℚ
  startRotation : ℚ
  startAngle : ℚ
deriving DecidableEq, Repr

/-- Per-item update applied by handleMouseMove (part_000 lines 567-597), with
mc, ms, matan2 interpreting Math.cos, Math.sin, Math.atan2(y,x).  dx, dy are
the pointer deltas since pointer-down and pos is the current pointer position. -/
def handleMouseMoveItem (mc ms : ℚ → ℚ) (matan2 : ℚ → ℚ → ℚ)
    (mode : InteractionMode) (selectedItemId : String) (ini : DragInit)
    (dx dy posX posY : ℚ) (item : CanvasItem) : CanvasItem :=
  if item.id = selectedItemId then
    match mode with
    | InteractionMode.ROTATE =>
        let p := if item.type = ItemType.text then item.backgroundPadding.getD 0 else 0
        let totalW := (item.width + p * 2) * item.scale
        let totalH := (item.height + p * 2) * item.scale
        let cx := ini.x + totalW / 2
        let cy := ini.y + totalH / 2
        let currentAngle := matan2 (posY - cy) (posX - cx)
        let deltaAngle := currentAngle - ini.startAngle
        { item with rotation := ini.startRotation + deltaAngle }
    | InteractionMode.MOVE =>
        { item with x := ini.x + dx, y := ini.y + dy }
    | InteractionMode.RESIZE =>
        let angle := item.rotation
        let localDx := dx * mc (-angle) - dy * ms (-angle)
        let newW := ini.width * ini.scale + localDx
        let newScale := max (1 / 10) (newW / ini.width)
        { item with scale := newScale }
    | InteractionMode.CROP_BR =>
        let dW := dx / item.scale
        let dH := dy / item.scale
        { item with
            width := max 50 (ini.width + dW)
            height := max 50 (ini.height + dH)
            imgOffsetX := ini.imgOffsetX - dW / 2
            imgOffsetY := ini.imgOffsetY - dH / 2 }
    | InteractionMode.CROP_PAN =>
        let dOffsetX := dx / item.scale
        let dOffsetY := dy / item.scale
        { item with
            imgOffsetX := ini.imgOffsetX + dOffsetX
            imgOffsetY := ini.imgOffsetY + dOffsetY }
    | _ => item
  else item

/-- The full handleMouseMove (part_000 lines 561-598): with no active mode, no
selection or no drag snapshot the item list is untouched; otherwise every item
is mapped through the per-item update. -/
def handleMouseMove (mc ms : ℚ → ℚ) (matan2 : ℚ → ℚ → ℚ)
    (mode : InteractionMode) (selectedItemId : Option String)
    (ini : Option DragInit) (dragStart pos : ℚ × ℚ)
    (items : List CanvasItem) : List CanvasItem :=
  match mode, selectedItemId, ini with
  | InteractionMode.NONE, _, _ => items
  | _, none, _ => items
  | _, _, none => items
  | m, some sel, some i0 =>
      items.map (handleMouseMoveItem mc ms matan2 m sel i0
        (pos.1 - dragStart.1) (pos.2 - dragStart.2) pos.1 pos.2)

/-- The RESIZE branch of the timeline renderer handleMouseMove for decoration
overlays (VideoPreview lines 1274-1282): the new scale derived from the local
width delta, floored at 0.1. -/
def overlayResizeScale (mc ms : ℚ → ℚ) (rotation width scale dx dy : ℚ) : ℚ :=
  let localDx := dx * mc (-rotation) - dy * ms (-rotation)
  let newW := width * scale + localDx
  max (1 / 10) (newW / width)

/-! ## Audio graph builder (VideoPreview setupAudioGraph) -/

/-- One Web Audio gain-automation event, in seconds. -/
inductive AutomationEvent
  | setValue (time value : ℚ)
  | linearRamp (time value : ℚ)
deriving DecidableEq, Repr

/-- Value of a gain parameter at time t for a time-sorted automation event
list, following the Web Audio semantics: setValueAtTime holds its value from
its event time on, linearRampToValueAtTime interpolates linearly from the
previous event point to its own.  prevT, prevV is the last event point already
passed. -/
def valueAt (t : ℚ) : ℚ → ℚ → List AutomationEvent → ℚ
  | _, prevV, [] => prevV
  | _, prevV, AutomationEvent.setValue tv v :: rest =>
      if t < tv then prevV else valueAt t tv v rest
  | prevT, prevV, AutomationEvent.linearRamp tv v :: rest =>
      if t < tv then prevV + (v - prevV) * (t - prevT) / (tv - prevT)
      else valueAt t tv v rest

/-- Ducking automation events contributed by the slides after currentTime has
reached cur (setupAudioGraph, VideoPreview lines 918-930): every video slide
with enableOriginalAudio set and not missing ramps the music down to 0.2 over
0.3 s at its start and back to 1 over the 0.3 s before its end. -/
def duckingEventsAux (photoDuration : ℚ) : ℚ → List MediaItem → List AutomationEvent
  | _, [] => []
  | cur, m :: rest =>
      let d := match m.type with
        | MediaType.video => jsOr m.duration 5
        | MediaType.image => photoDuration
      (if m.type = MediaType.video ∧ m.enableOriginalAudio ∧ ¬m.missing then
        let duckStart := max 0 cur
        let duckEnd := cur + d
        [AutomationEvent.setValue duckStart 1,
         AutomationEvent.linearRamp (duckStart + 3 / 10) (1 / 5),
         AutomationEvent.setValue (duckEnd - 3 / 10) (1 / 5),
         AutomationEvent.linearRamp duckEnd 1]
      else []) ++ duckingEventsAux photoDuration (cur + d) rest

/-- Full automation event list of the ducking gain node: the initial
setValueAtTime(1, 0) of line 917 followed by the per-slide events. -/
def duckingEvents (photoDuration : ℚ) (mediaList : List MediaItem) :
    List AutomationEvent :=
  AutomationEvent.setValue 0 1 :: duckingEventsAux photoDuration 0 mediaList

/-- Ducking gain envelope value at time t seconds. -/
def duckingGainAt (photoDuration : ℚ) (mediaList : List MediaItem) (t : ℚ) : ℚ :=
  valueAt t 0 1 (duckingEvents photoDuration mediaList)

/-- The C5 scenario: one image slide of 5 s followed by one video slide of 5 s
with original audio enabled, so the video spans t = 5 s to t = 10 s. -/
def c5MediaList : List MediaItem :=
  [{ id := "img1", type := MediaType.image, duration := none,
     enableOriginalAudio := false, missing := false, transition := none,
     hasCollageData := false, fileName := some "img1.jpg" },
   { id := "vid1", type := MediaType.video, duration := some 5,
     enableOriginalAudio := true, missing := false, transition := none,
     hasCollageData := false, fileName := some "vid1.mp4" }]

/-! ## Background-track scheduling loop (setupAudioGraph lines 874-914) -/

/-- Mutable state of the while loop laying background tracks end-to-end. -/
structure BgState where
  cursorTime : ℚ
  trackIndex : ℕ
deriving DecidableEq, Repr

/-- One iteration of the scheduling while loop (VideoPreview lines 879-914)
over the decoded buffer durations (none models a null buffer).  The result is
none when the loop exits: either the cursor reached the total video duration,
or an unusable track pushed the attempt counter past 100.  A usable track
advances the cursor by its duration minus the crossfade
min(0.5, duration / 3). -/
def bgStep (buffers : List (Option ℚ)) (videoDuration : ℚ) (s : BgState) :
    Option BgState :=
  if s.cursorTime < videoDuration then
    match (buffers.get? (s.trackIndex % buffers.length)).join with
    | none =>
        if s.trackIndex + 1 > 100 then none
        else some ⟨s.cursorTime, s.trackIndex + 1⟩
    | some dur =>
        if dur < 1 / 10 then
          if s.trackIndex + 1 > 100 then none
          else some ⟨s.cursorTime, s.trackIndex + 1⟩
        else
          let fadeTime := min (1 / 2) (dur / 3)
          some ⟨s.cursorTime + (dur - fadeTime), s.trackIndex + 1⟩
  else none

/-- Iterating the scheduling loop n times from state s: some means the loop is
still running after n iterations, none means it has exited. -/
def bgIterate (buffers : List (Option ℚ)) (videoDuration : ℚ) :
    ℕ → BgState → Option BgState
  | 0, s => some s
  | n + 1, s =>
      match bgStep buffers videoDuration s with
      | none => none
      | some s2 => bgIterate buffers videoDuration n s2

/-- Termination measure for the scheduling loop: usable tracks shrink the
ceiling of fifteen times the remaining duration, unusable tracks shrink the
attempt budget. -/
def bgMeasure (videoDuration : ℚ) (s : BgState) : ℕ :=
  200 * (⌈(videoDuration - s.cursorTime) * 15⌉ : ℤ).toNat + (101 - s.trackIndex)

/-! ## Placeholder rendering for unavailable assets (VideoPreview) -/

/-- Result of loading one slide asset (loadResources, VideoPreview lines
70-97): a missing file resolves to null immediately, a decode error resolves
to null via onerror, and a successful decode resolves to the element. -/
def loadResourceResult (m : MediaItem) (decodeOk : Bool) : Option Unit :=
  if m.missing then none
  else if decodeOk then some () else none

/-- What renderMedia does for one slide. -/
inductive RenderOutcome
  | collage
  | placeholder (fileName : String)
  | skipped
  | drawn
deriving DecidableEq, Repr

/-- Per-slide decision of renderMedia (VideoPreview lines 665-692): collage
data takes priority; a null asset draws the placeholder panel only when the
missing flag is set and otherwise returns silently; a present asset is drawn. -/
def renderMediaOutcome (media : Option Unit) (mediaData : Option MediaItem) :
    RenderOutcome :=
  match mediaData with
  | some md =>
      if md.hasCollageData then RenderOutcome.collage
      else match media with
        | none =>
            if md.missing then RenderOutcome.placeholder (md.fileName.getD "Unknown")
            else RenderOutcome.skipped
        | some _ => RenderOutcome.drawn
  | none =>
      match media with
      | none => RenderOutcome.skipped
      | some _ => RenderOutcome.drawn

/-! ## Effect animation clocks (C8) -/

/-- Time value driving decoration animations in the collage editor (part_000
lines 263-264): const t = (Date.now() / 1000) % 3, for a wall clock in
milliseconds. -/
def collageEffectTime (nowMs : ℚ) : ℚ := jsMod (nowMs / 1000) 3

/-- Time value driving decoration animations in the timeline renderer
(VideoPreview lines 668 and 763): timeInSlide / 1000, passed to drawEffect
with no duration gate (the 3 s check was removed, line 312). -/
def previewEffectTime (timeInSlideMs : ℚ) : ℚ := timeInSlideMs / 1000

/-! ## Decoration drawing: the two copies (C7) -/

/-- One canvas 2D drawing operation; state setters record the value set. -/
inductive CanvasOp
  | save
  | restore
  | beginPath
  | closePath
  | stroke
  | fill
  | clip
  | translate (x y : ℚ)
  | rotate (angle : ℚ)
  | scaleOp (x y : ℚ)
  | moveTo (x y : ℚ)
  | lineTo (x y : ℚ)
  | arc (x y radius a1 a2 : ℚ)
  | ellipse (x y rx ry rot a1 a2 : ℚ)
  | bezierCurveTo (c1x c1y c2x c2y x y : ℚ)
  | quadraticCurveTo (cx cy x y : ℚ)
  | setStrokeStyle (v : String)
  | setFillStyle (v : String)
  | setLineWidth (v : ℚ)
  | setLineCap (v : String)
  | setLineJoin (v : String)
  | setShadowColor (v : String)
  | setShadowBlur (v : ℚ)
  | setGlobalAlpha (v : ℚ)
  | setLineDash (v : List ℚ)
  | setLineDashOffset (v : ℚ)
  | setFont (v : String)
  | fillText (text : String) (x y : ℚ)
  | setTextAlign (v : String)
  | setTextBaseline (v : String)
deriving DecidableEq, Repr

/-- Iteration count of the JS loop for(i = 0; i <= limit; i += step) for a
positive step: the values visited are step * k for k below this count. -/
def jsLoopCountLe (limit step : ℚ) : ℕ :=
  if limit < 0 then 0 else (⌊limit / step⌋ : ℤ).toNat + 1

/-- Iteration count of the JS loop for(x = 0; x < limit; x += step) for a
positive step. -/
def jsLoopCountLt (limit step : ℚ) : ℕ :=
  if limit ≤ 0 then 0 else (⌈limit / step⌉ : ℤ).toNat

/-- The shared switch on animationType, transcribed once per copy below; this
is the body of the collage editor copy (part_000 lines 386-437).  msin and mpi
interpret Math.sin and Math.PI; randT and randB are the successive Math.random
draws of the two tape edges. -/
def drawFrameEffectSwitch (msin : ℚ → ℚ) (mpi : ℚ) (randT randB : ℕ → ℚ)
    (kind : AnimationType) (w h t : ℚ) : List CanvasOp :=
  match kind with
  | AnimationType.REC_FRAME =>
      let cornerLen := min w h * (1 / 5)
      CanvasOp.beginPath :: CanvasOp.moveTo 0 cornerLen :: CanvasOp.lineTo 0 0 ::
      CanvasOp.lineTo cornerLen 0 :: CanvasOp.stroke ::
      CanvasOp.beginPath :: CanvasOp.moveTo (w - cornerLen) 0 :: CanvasOp.lineTo w 0 ::
      CanvasOp.lineTo w cornerLen :: CanvasOp.stroke ::
      CanvasOp.beginPath :: CanvasOp.moveTo 0 (h - cornerLen) :: CanvasOp.lineTo 0 h ::
      CanvasOp.lineTo cornerLen h :: CanvasOp.stroke ::
      CanvasOp.beginPath :: CanvasOp.moveTo (w - cornerLen) h :: CanvasOp.lineTo w h ::
      CanvasOp.lineTo w (h - cornerLen) :: CanvasOp.stroke ::
      CanvasOp.setFont "bold 20px sans-serif" :: CanvasOp.fillText "REC" 20 30 ::
      (if (⌊t * 2⌋ : ℤ) % 2 = 0 then
        [CanvasOp.setFillStyle "#ef4444", CanvasOp.beginPath,
         CanvasOp.arc 10 23 5 0 (mpi * 2), CanvasOp.fill]
      else [])
  | AnimationType.RED_CIRCLE =>
      let circ := mpi * max w h
      CanvasOp.setStrokeStyle "#ef4444" :: CanvasOp.setLineWidth 4 ::
      CanvasOp.beginPath :: CanvasOp.save :: CanvasOp.translate (w / 2) (h / 2) ::
      CanvasOp.setLineDash [circ, circ] ::
      CanvasOp.setLineDashOffset (circ - circ * min 1 t) ::
      CanvasOp.beginPath ::
      CanvasOp.ellipse 0 0 (w / 2 - 5) (h / 2 - 5) 0 0 (mpi * 2) :: CanvasOp.stroke ::
      CanvasOp.setGlobalAlpha (6 / 10) :: CanvasOp.beginPath ::
      CanvasOp.ellipse 1 1 (w / 2 - 6) (h / 2 - 4) (1 / 10) 0 (mpi * 2) ::
      CanvasOp.stroke :: [CanvasOp.restore]
  | AnimationType.LOCATION_PIN =>
      let pinW := min w h * (1 / 2)
      let pinX := w / 2
      let pinY := h - 10
      let bob := msin (t * 5) * 5
      CanvasOp.save :: CanvasOp.translate pinX (pinY - pinW - bob) ::
      CanvasOp.beginPath :: CanvasOp.moveTo 0 pinW ::
      CanvasOp.bezierCurveTo (-pinW / 2) (pinW / 2) (-pinW) 0 (-pinW) (-pinW / 4) ::
      CanvasOp.arc 0 (-pinW / 4) pinW mpi 0 ::
      CanvasOp.bezierCurveTo pinW 0 (pinW / 2) (pinW / 2) 0 pinW ::
      CanvasOp.closePath :: CanvasOp.stroke ::
      CanvasOp.setFillStyle "#ffffff" :: CanvasOp.beginPath ::
      CanvasOp.arc 0 (-pinW / 4) (pinW / 3) 0 (mpi * 2) :: CanvasOp.fill ::
      CanvasOp.restore ::
      CanvasOp.save :: CanvasOp.translate pinX pinY :: CanvasOp.scaleOp 1 (3 / 10) ::
      CanvasOp.setFillStyle "rgba(0,0,0,0.3)" :: CanvasOp.beginPath ::
      CanvasOp.arc 0 0 (10 + |bob|) 0 (mpi * 2) :: CanvasOp.fill :: [CanvasOp.restore]
  | AnimationType.TAPE =>
      CanvasOp.save :: CanvasOp.setGlobalAlpha (6 / 10) ::
      CanvasOp.setFillStyle "#ffffff" ::
      CanvasOp.beginPath :: CanvasOp.moveTo 0 0 ::
      ((List.range (jsLoopCountLe w 5)).map (fun (k : ℕ) =>
          CanvasOp.lineTo (5 * (k : ℚ)) (randT k * 2)) ++
       CanvasOp.lineTo w h ::
       ((List.range (jsLoopCountLe w 5)).map (fun (k : ℕ) =>
           CanvasOp.lineTo (w - 5 * (k : ℚ)) (h - randB k * 2)) ++
        CanvasOp.lineTo 0 0 :: CanvasOp.fill ::
        CanvasOp.clip :: CanvasOp.setStrokeStyle "#cbd5e1" ::
        CanvasOp.setLineWidth 1 :: CanvasOp.beginPath ::
        ((List.range (jsLoopCountLt w 10)).flatMap (fun (k : ℕ) =>
            [CanvasOp.moveTo (10 * (k : ℚ)) 0, CanvasOp.lineTo (10 * (k : ℚ)) h]) ++
         ((List.range (jsLoopCountLt h 10)).flatMap (fun (k : ℕ) =>
             [CanvasOp.moveTo 0 (10 * (k : ℚ)), CanvasOp.lineTo w (10 * (k : ℚ))]) ++
          [CanvasOp.stroke, CanvasOp.restore]))))
  | AnimationType.BULB_LINE =>
      let bulbW := min w h * (6 / 10)
      let bX := w / 2
      let bY := h / 2
      let flicker := 8 / 10 + msin (t * 20) * (2 / 10)
      CanvasOp.save :: CanvasOp.translate bX bY :: CanvasOp.setGlobalAlpha flicker ::
      CanvasOp.beginPath ::
      CanvasOp.arc 0 (-bulbW / 2) (bulbW / 2) (mpi * (8 / 10)) (mpi * (22 / 10)) ::
      CanvasOp.quadraticCurveTo (bulbW / 2) 0 (bulbW / 4) (bulbW / 2) ::
      CanvasOp.lineTo (-bulbW / 4) (bulbW / 2) ::
      CanvasOp.quadraticCurveTo (-bulbW / 2) 0 (-bulbW * (48 / 100)) (-bulbW * (25 / 100)) ::
      CanvasOp.stroke ::
      CanvasOp.beginPath :: CanvasOp.moveTo (-10) 0 :: CanvasOp.lineTo (-5) (-20) ::
      CanvasOp.lineTo 5 (-20) :: CanvasOp.lineTo 10 0 :: CanvasOp.stroke ::
      ((if msin (t * 5) > 0 then
          [CanvasOp.beginPath, CanvasOp.moveTo 0 (-bulbW), CanvasOp.lineTo 0 (-bulbW - 10),
           CanvasOp.moveTo bulbW (-bulbW / 2), CanvasOp.lineTo (bulbW + 10) (-bulbW / 2 - 10),
           CanvasOp.moveTo (-bulbW) (-bulbW / 2),
           CanvasOp.lineTo (-bulbW - 10) (-bulbW / 2 - 10),
           CanvasOp.stroke]
        else []) ++ [CanvasOp.restore])
  | AnimationType.HEART_LINE =>
      let heartScale := min w h / 100
      let beat := 1 + msin (t * 8) * (5 / 100)
      CanvasOp.save :: CanvasOp.translate (w / 2) (h / 2) ::
      CanvasOp.scaleOp (heartScale * beat) (heartScale * beat) ::
      CanvasOp.beginPath :: CanvasOp.moveTo 0 20 ::
      CanvasOp.bezierCurveTo 0 (-10) (-50) (-10) (-50) 20 ::
      CanvasOp.bezierCurveTo (-50) 50 0 80 0 90 ::
      CanvasOp.bezierCurveTo 0 80 50 50 50 20 ::
      CanvasOp.bezierCurveTo 50 (-10) 0 (-10) 0 20 ::
      CanvasOp.bezierCurveTo 50 (-10) 0 (-10) 0 20 ::
      [CanvasOp.stroke, CanvasOp.restore]

/-- The matching switch of the timeline renderer drawEffect (VideoPreview
lines 341-506), transcribed from that copy; the two switch bodies are
character-for-character the same source code. -/
def drawEffectSwitch (msin : ℚ → ℚ) (mpi : ℚ) (randT randB : ℕ → ℚ)
    (kind : AnimationType) (w h t : ℚ) : List CanvasOp :=
  match kind with
  | AnimationType.REC_FRAME =>
      let cornerLen := min w h * (1 / 5)
      CanvasOp.beginPath :: CanvasOp.moveTo 0 cornerLen :: CanvasOp.lineTo 0 0 ::
      CanvasOp.lineTo cornerLen 0 :: CanvasOp.stroke ::
      CanvasOp.beginPath :: CanvasOp.moveTo (w - cornerLen) 0 :: CanvasOp.lineTo w 0 ::
      CanvasOp.lineTo w cornerLen :: CanvasOp.stroke ::
      CanvasOp.beginPath :: CanvasOp.moveTo 0 (h - cornerLen) :: CanvasOp.lineTo 0 h ::
      CanvasOp.lineTo cornerLen h :: CanvasOp.stroke ::
      CanvasOp.beginPath :: CanvasOp.moveTo (w - cornerLen) h :: CanvasOp.lineTo w h ::
      CanvasOp.lineTo w (h - cornerLen) :: CanvasOp.stroke ::
      CanvasOp.setFont "bold 20px sans-serif" :: CanvasOp.fillText "REC" 20 30 ::
      (if (⌊t * 2⌋ : ℤ) % 2 = 0 then
        [CanvasOp.setFillStyle "#ef4444", CanvasOp.beginPath,
         CanvasOp.arc 10 23 5 0 (mpi * 2), CanvasOp.fill]
      else [])
  | AnimationType.RED_CIRCLE =>
      let circ := mpi * max w h
      CanvasOp.setStrokeStyle "#ef4444" :: CanvasOp.setLineWidth 4 ::
      CanvasOp.beginPath :: CanvasOp.save :: CanvasOp.translate (w / 2) (h / 2) ::
      CanvasOp.setLineDash [circ, circ] ::
      CanvasOp.setLineDashOffset (circ - circ * min 1 t) ::
      CanvasOp.beginPath ::
      CanvasOp.ellipse 0 0 (w / 2 - 5) (h / 2 - 5) 0 0 (mpi * 2) :: CanvasOp.stroke ::
      CanvasOp.setGlobalAlpha (6 / 10) :: CanvasOp.beginPath ::
      CanvasOp.ellipse 1 1 (w / 2 - 6) (h / 2 - 4) (1 / 10) 0 (mpi * 2) ::
      CanvasOp.stroke :: [CanvasOp.restore]
  | AnimationType.LOCATION_PIN =>
      let pinW := min w h * (1 / 2)
      let pinX := w / 2
      let pinY := h - 10
      let bob := msin (t * 5) * 5
      CanvasOp.save :: CanvasOp.translate pinX (pinY - pinW - bob) ::
      CanvasOp.beginPath :: CanvasOp.moveTo 0 pinW ::
      CanvasOp.bezierCurveTo (-pinW / 2) (pinW / 2) (-pinW) 0 (-pinW) (-pinW / 4) ::
      CanvasOp.arc 0 (-pinW / 4) pinW mpi 0 ::
      CanvasOp.bezierCurveTo pinW 0 (pinW / 2) (pinW / 2) 0 pinW ::
      CanvasOp.closePath :: CanvasOp.stroke ::
      CanvasOp.setFillStyle "#ffffff" :: CanvasOp.beginPath ::
      CanvasOp.arc 0 (-pinW / 4) (pinW / 3) 0 (mpi * 2) :: CanvasOp.fill ::
      CanvasOp.restore ::
      CanvasOp.save :: CanvasOp.translate pinX pinY :: CanvasOp.scaleOp 1 (3 / 10) ::
      CanvasOp.setFillStyle "rgba(0,0,0,0.3)" :: CanvasOp.beginPath ::
      CanvasOp.arc 0 0 (10 + |bob|) 0 (mpi * 2) :: CanvasOp.fill :: [CanvasOp.restore]
  | AnimationType.TAPE =>
      CanvasOp.save :: CanvasOp.setGlobalAlpha (6 / 10) ::
      CanvasOp.setFillStyle "#ffffff" ::
      CanvasOp.beginPath :: CanvasOp.moveTo 0 0 ::
      ((List.range (jsLoopCountLe w 5)).map (fun (k : ℕ) =>
          CanvasOp.lineTo (5 * (k : ℚ)) (randT k * 2)) ++
       CanvasOp.lineTo w h ::
       ((List.range (jsLoopCountLe w 5)).map (fun (k : ℕ) =>
           CanvasOp.lineTo (w - 5 * (k : ℚ)) (h - randB k * 2)) ++
        CanvasOp.lineTo 0 0 :: CanvasOp.fill ::
        CanvasOp.clip :: CanvasOp.setStrokeStyle "#cbd5e1" ::
        CanvasOp.setLineWidth 1 :: CanvasOp.beginPath ::
        ((List.range (jsLoopCountLt w 10)).flatMap (fun (k : ℕ) =>
            [CanvasOp.moveTo (10 * (k : ℚ)) 0, CanvasOp.lineTo (10 * (k : ℚ)) h]) ++
         ((List.range (jsLoopCountLt h 10)).flatMap (fun (k : ℕ) =>
             [CanvasOp.moveTo 0 (10 * (k : ℚ)), CanvasOp.lineTo w (10 * (k : ℚ))]) ++
          [CanvasOp.stroke, CanvasOp.restore]))))
  | AnimationType.BULB_LINE =>
      let bulbW := min w h * (6 / 10)
      let bX := w / 2
      let bY := h / 2
      let flicker := 8 / 10 + msin (t * 20) * (2 / 10)
      CanvasOp.save :: CanvasOp.translate bX bY :: CanvasOp.setGlobalAlpha flicker ::
      CanvasOp.beginPath ::
      CanvasOp.arc 0 (-bulbW / 2) (bulbW / 2) (mpi * (8 / 10)) (mpi * (22 / 10)) ::
      CanvasOp.quadraticCurveTo (bulbW / 2) 0 (bulbW / 4) (bulbW / 2) ::
      CanvasOp.lineTo (-bulbW / 4) (bulbW / 2) ::
      CanvasOp.quadraticCurveTo (-bulbW / 2) 0 (-bulbW * (48 / 100)) (-bulbW * (25 / 100)) ::
      CanvasOp.stroke ::
      CanvasOp.beginPath :: CanvasOp.moveTo (-10) 0 :: CanvasOp.lineTo (-5) (-20) ::
      CanvasOp.lineTo 5 (-20) :: CanvasOp.lineTo 10 0 :: CanvasOp.stroke ::
      ((if msin (t * 5) > 0 then
          [CanvasOp.beginPath, CanvasOp.moveTo 0 (-bulbW), CanvasOp.lineTo 0 (-bulbW - 10),
           CanvasOp.moveTo bulbW (-bulbW / 2), CanvasOp.lineTo (bulbW + 10) (-bulbW / 2 - 10),
           CanvasOp.moveTo (-bulbW) (-bulbW / 2),
           CanvasOp.lineTo (-bulbW - 10) (-bulbW / 2 - 10),
           CanvasOp.stroke]
        else []) ++ [CanvasOp.restore])
  | AnimationType.HEART_LINE =>
      let heartScale := min w h / 100
      let beat := 1 + msin (t * 8) * (5 / 100)
      CanvasOp.save :: CanvasOp.translate (w / 2) (h / 2) ::
      CanvasOp.scaleOp (heartScale * beat) (heartScale * beat) ::
      CanvasOp.beginPath :: CanvasOp.moveTo 0 20 ::
      CanvasOp.bezierCurveTo 0 (-10) (-50) (-10) (-50) 20 ::
      CanvasOp.bezierCurveTo (-50) 50 0 80 0 90 ::
      CanvasOp.bezierCurveTo 0 80 50 50 50 20 ::
      CanvasOp.bezierCurveTo 50 (-10) 0 (-10) 0 20 ::
      CanvasOp.bezierCurveTo 50 (-10) 0 (-10) 0 20 ::
      [CanvasOp.stroke, CanvasOp.restore]

/-- Full op sequence of the collage editor effect branch for one decoration
item (part_000: transform lines 268-293 with p = 0 for effect items, style
setup lines 378-384, switch lines 386-437, restore line 440). -/
def drawFrameEffectOps (msin : ℚ → ℚ) (mpi : ℚ) (randT randB : ℕ → ℚ)
    (kind : AnimationType) (x y w h scale rotation t : ℚ) : List CanvasOp :=
  let p : ℚ := 0
  let halfW := (w + p * 2) / 2
  let halfH := (h + p * 2) / 2
  let cx := x + halfW * scale
  let cy := y + halfH * scale
  CanvasOp.save :: CanvasOp.translate cx cy :: CanvasOp.rotate rotation ::
  CanvasOp.scaleOp scale scale :: CanvasOp.translate (-halfW) (-halfH) ::
  CanvasOp.setStrokeStyle "#ffffff" :: CanvasOp.setFillStyle "#ffffff" ::
  CanvasOp.setLineWidth 3 :: CanvasOp.setLineCap "round" ::
  CanvasOp.setLineJoin "round" :: CanvasOp.setShadowColor "rgba(0,0,0,0.2)" ::
  CanvasOp.setShadowBlur 2 ::
  (drawFrameEffectSwitch msin mpi randT randB kind w h t ++ [CanvasOp.restore])

/-- Full op sequence of the timeline renderer drawEffect for one decoration
item (VideoPreview: transform lines 314-322, text alignment lines 328-329,
style setup lines 333-339, switch lines 341-506, restore line 507). -/
def drawEffectOps (msin : ℚ → ℚ) (mpi : ℚ) (randT randB : ℕ → ℚ)
    (kind : AnimationType) (x y w h scale rotation t : ℚ) : List CanvasOp :=
  let cx := x + w * scale / 2
  let cy := y + h * scale / 2
  CanvasOp.save :: CanvasOp.translate cx cy :: CanvasOp.rotate rotation ::
  CanvasOp.scaleOp scale scale :: CanvasOp.translate (-w / 2) (-h / 2) ::
  CanvasOp.setTextAlign "center" :: CanvasOp.setTextBaseline "middle" ::
  CanvasOp.setStrokeStyle "#ffffff" :: CanvasOp.setFillStyle "#ffffff" ::
  CanvasOp.setLineWidth 3 :: CanvasOp.setLineCap "round" ::
  CanvasOp.setLineJoin "round" :: CanvasOp.setShadowColor "rgba(0,0,0,0.2)" ::
  CanvasOp.setShadowBlur 2 ::
  (drawEffectSwitch msin mpi randT randB kind w h t ++ [CanvasOp.restore])

/-- Concrete slide whose backing file is present but fails to decode: missing
is false, yet loadResources resolves its asset to null via onerror. -/
def decodeFailItem : MediaItem :=
  { id := "m1", type := MediaType.image, duration := none,
    enableOriginalAudio := false, missing := false, transition := none,
    hasCollageData := false, fileName := some "photo.jpg" }

/-- Concrete drag snapshot for witness instantiations. -/
def dragInit0 : DragInit :=
  { x := 5, y := 6, width := 200, height := 100, scale := 1,
    imgOffsetX := 0, imgOffsetY := 0, startRotation := 0, startAngle := 0 }

/-- Concrete image item for witness instantiations. -/
def itemA : CanvasItem :=
  { id := "a", type := ItemType.image, x := 10, y := 20, width := 200,
    height := 100, scale := 1, rotation := 0, zIndex := 3, imgOffsetX := 0,
    imgOffsetY := 0, imgZoom := 1, backgroundColor := none,
    backgroundPadding := none }

/-- Concrete slide whose backing file is flagged missing at load time. -/
def missingItem : MediaItem :=
  { id := "m2", type := MediaType.video, duration := some 4,
    enableOriginalAudio := false, missing := true, transition := none,
    hasCollageData := false, fileName := some "clip.mp4" }

/-! ## Theorems -/

/-- C1: the constants of the forward drawing transform and of the pointer
hit-test inverse diverge.  The drawing pad counts backgroundPadding only for
text WITH a background color, the hit-test pad for every text item; on a text
item with padding 10, no background color and a rotation of pi radians
(interpreting cos and sin by their exact values there, which satisfy the
evenness, oddness and Pythagorean laws), the point drawn at local (0,0) sits
at world (100,50), but the hit-test maps that world point to local (20,20)
instead of scale times (0,0) = (0,0): the inverse does not invert the forward
transform, so selection and visuals desync. -/
theorem drawFrame_handleMouseDown_pad_divergence :
    drawFramePad padBugItem = 0 ∧
    handleMouseDownPad padBugItem = 10 ∧
    (∀ a : ℚ, cosPi (-a) = cosPi a) ∧
    (∀ a : ℚ, sinPi (-a) = -sinPi a) ∧
    cosPi padBugItem.rotation ^ 2 + sinPi padBugItem.rotation ^ 2 = 1 ∧
    drawFrameToWorld cosPi sinPi padBugItem (0, 0) = (100, 50) ∧
    handleMouseDownLocal cosPi sinPi padBugItem (100, 50) = (20, 20) ∧
    padBugItem.scale * 0 = 0 ∧ (20 : ℚ) ≠ 0 := by
  refine ⟨rfl, rfl, fun a => rfl, fun a => by simp [sinPi], by norm_num [cosPi, sinPi], ?_, ?_, by norm_num [padBugItem], by norm_num⟩
  · norm_num [drawFrameToWorld, drawFramePad, padBugItem, cosPi, sinPi]
  · norm_num [handleMouseDownLocal, handleMouseDownPad, padBugItem, cosPi, sinPi]

/-- C2: over durations [3000, 3000, 3000] ms with transition duration 1000 ms,
clock 2500 maps to slide 0 with local time 2500, which is not before the
transition start 2000 (inside the window), and clock 3500 maps to slide 1 with
local time 500, which is before 2000 (outside the window). -/
theorem findSlide_three_slides_spec :
    findSlide [3000, 3000, 3000] 2500 = (0, 3000, 0) ∧
    2500 - (findSlide [3000, 3000, 3000] 2500).2.2 = 2500 ∧
    transitionStart 1000 3000 = 2000 ∧
    ¬(2500 - (findSlide [3000, 3000, 3000] 2500).2.2 <
        transitionStart 1000 (findSlide [3000, 3000, 3000] 2500).2.1) ∧
    findSlide [3000, 3000, 3000] 3500 = (1, 3000, 3000) ∧
    3500 - (findSlide [3000, 3000, 3000] 3500).2.2 = 500 ∧
    (3500 - (findSlide [3000, 3000, 3000] 3500).2.2 <
        transitionStart 1000 (findSlide [3000, 3000, 3000] 3500).2.1) := by
  norm_num [findSlide, findSlideAux, transitionStart, effectiveTransitionDuration]

/-- C3: for every raw transition progress (clamped as in the source), frame
size and outgoing zoom, the slide transitions translate the outgoing slide
off-frame by progress times the frame dimension and bring the incoming slide
in from the opposite edge by (1 - progress) times that dimension, both at
alpha 1, while fade, zoom-in and zoom-out (the default arm) draw the outgoing
slide first at alpha 1 and then the incoming slide on top at alpha progress. -/
theorem transitionCalls_spec (raw currentScale W H : ℚ) :
    transitionCalls TransitionType.SLIDE_LEFT (clamp01 raw) currentScale W H =
      [⟨SlideRef.current, 1, currentScale, -(clamp01 raw) * W, 0⟩,
       ⟨SlideRef.next, 1, 1, (1 - clamp01 raw) * W, 0⟩] ∧
    transitionCalls TransitionType.SLIDE_RIGHT (clamp01 raw) currentScale W H =
      [⟨SlideRef.current, 1, currentScale, clamp01 raw * W, 0⟩,
       ⟨SlideRef.next, 1, 1, -((1 - clamp01 raw) * W), 0⟩] ∧
    transitionCalls TransitionType.SLIDE_UP (clamp01 raw) currentScale W H =
      [⟨SlideRef.current, 1, currentScale, 0, -(clamp01 raw) * H⟩,
       ⟨SlideRef.next, 1, 1, 0, (1 - clamp01 raw) * H⟩] ∧
    transitionCalls TransitionType.SLIDE_DOWN (clamp01 raw) currentScale W H =
      [⟨SlideRef.current, 1, currentScale, 0, clamp01 raw * H⟩,
       ⟨SlideRef.next, 1, 1, 0, -((1 - clamp01 raw) * H)⟩] ∧
    transitionCalls TransitionType.FADE (clamp01 raw) currentScale W H =
      [⟨SlideRef.current, 1, currentScale, 0, 0⟩,
       ⟨SlideRef.next, clamp01 raw, 1, 0, 0⟩] ∧
    transitionCalls TransitionType.ZOOM_IN (clamp01 raw) currentScale W H =
      [⟨SlideRef.current, 1, currentScale, 0, 0⟩,
       ⟨SlideRef.next, clamp01 raw, 1, 0, 0⟩] ∧
    transitionCalls TransitionType.ZOOM_OUT (clamp01 raw) currentScale W H =
      [⟨SlideRef.current, 1, currentScale, 0, 0⟩,
       ⟨SlideRef.next, clamp01 raw, 1, 0, 0⟩] ∧
    0 ≤ clamp01 raw ∧ clamp01 raw ≤ 1 := by
  refine ⟨rfl, rfl, rfl, rfl, rfl, rfl, rfl, le_max_left 0 _, ?_⟩
  simp [clamp01]

/-- C4: on the selected item, the collage editor resize interaction yields a
scale of at least 0.1 and the crop-resize interaction yields width and height
of at least 50, and the timeline renderer overlay resize also floors the scale
at 0.1, whatever the pointer delta, drag snapshot and trig interpretation. -/
theorem interaction_clamp_bounds (mc ms : ℚ → ℚ) (matan2 : ℚ → ℚ → ℚ)
    (ini : DragInit) (dx dy px py rot wdt scl : ℚ) (item : CanvasItem) :
    1 / 10 ≤ (handleMouseMoveItem mc ms matan2 InteractionMode.RESIZE item.id
        ini dx dy px py item).scale ∧
    50 ≤ (handleMouseMoveItem mc ms matan2 InteractionMode.CROP_BR item.id
        ini dx dy px py item).width ∧
    50 ≤ (handleMouseMoveItem mc ms matan2 InteractionMode.CROP_BR item.id
        ini dx dy px py item).height ∧
    1 / 10 ≤ overlayResizeScale mc ms rot wdt scl dx dy := by
  refine ⟨?_, ?_, ?_, ?_⟩ <;>
    simp [handleMouseMoveItem, overlayResizeScale, le_max_left]

/-- C10: each pointer-move interaction mode of the collage editor writes only
its designated fields of the selected item: MOVE only x and y, ROTATE only
rotation, RESIZE only scale, CROP_PAN only the image offset, CROP_BR only
width, height and the image offset; an item whose id differs from the
selection is returned unchanged, handleMouseMove is a per-item map over the
list, and with no active mode, no selection or no drag snapshot the list is
untouched. -/
theorem handleMouseMove_frame_conditions (mc ms : ℚ → ℚ) (matan2 : ℚ → ℚ → ℚ)
    (mode : InteractionMode) (sel : String) (ini : DragInit)
    (dx dy px py : ℚ) (item : CanvasItem) (dragStart pos : ℚ × ℚ)
    (items : List CanvasItem) :
    (handleMouseMove mc ms matan2 InteractionMode.NONE (some sel) (some ini)
        dragStart pos items = items) ∧
    (handleMouseMove mc ms matan2 mode none (some ini) dragStart pos items = items) ∧
    (handleMouseMove mc ms matan2 mode (some sel) none dragStart pos items = items) ∧
    (mode ≠ InteractionMode.NONE →
      handleMouseMove mc ms matan2 mode (some sel) (some ini) dragStart pos items =
        items.map (handleMouseMoveItem mc ms matan2 mode sel ini
          (pos.1 - dragStart.1) (pos.2 - dragStart.2) pos.1 pos.2)) ∧
    (item.id ≠ sel →
      handleMouseMoveItem mc ms matan2 mode sel ini dx dy px py item = item) ∧
    ((handleMouseMoveItem mc ms matan2 InteractionMode.MOVE sel ini dx dy px py
        item).id = item.id ∧
     (handleMouseMoveItem mc ms matan2 InteractionMode.MOVE sel ini dx dy px py
        item).type = item.type ∧
     (handleMouseMoveItem mc ms matan2 InteractionMode.MOVE sel ini dx dy px py
        item).width = item.width ∧
     (handleMouseMoveItem mc ms matan2 InteractionMode.MOVE sel ini dx dy px py
        item).height = item.height ∧
     (handleMouseMoveItem mc ms matan2 InteractionMode.MOVE sel ini dx dy px py
        item).scale = item.scale ∧
     (handleMouseMoveItem mc ms matan2 InteractionMode.MOVE sel ini dx dy px py
        item).rotation = item.rotation ∧
     (handleMouseMoveItem mc ms matan2 InteractionMode.MOVE sel ini dx dy px py
        item).zIndex = item.zIndex ∧
     (handleMouseMoveItem mc ms matan2 InteractionMode.MOVE sel ini dx dy px py
        item).imgOffsetX = item.imgOffsetX ∧
     (handleMouseMoveItem mc ms matan2 InteractionMode.MOVE sel ini dx dy px py
        item).imgOffsetY = item.imgOffsetY ∧
     (handleMouseMoveItem mc ms matan2 InteractionMode.MOVE sel ini dx dy px py
        item).imgZoom = item.imgZoom ∧
     (handleMouseMoveItem mc ms matan2 InteractionMode.MOVE sel ini dx dy px py
        item).backgroundColor = item.backgroundColor ∧
     (handleMouseMoveItem mc ms matan2 InteractionMode.MOVE sel ini dx dy px py
        item).backgroundPadding = item.backgroundPadding) ∧
    ((handleMouseMoveItem mc ms matan2 InteractionMode.ROTATE sel ini dx dy px py
        item).id = item.id ∧
     (handleMouseMoveItem mc ms matan2 InteractionMode.ROTATE sel ini dx dy px py
        item).type = item.type ∧
     (handleMouseMoveItem mc ms matan2 InteractionMode.ROTATE sel ini dx dy px py
        item).x = item.x ∧
     (handleMouseMoveItem mc ms matan2 InteractionMode.ROTATE sel ini dx dy px py
        item).y = item.y ∧
     (handleMouseMoveItem mc ms matan2 InteractionMode.ROTATE sel ini dx dy px py
        item).width = item.width ∧
     (handleMouseMoveItem mc ms matan2 InteractionMode.ROTATE sel ini dx dy px py
        item).height = item.height ∧
     (handleMouseMoveItem mc ms matan2 InteractionMode.ROTATE sel ini dx dy px py
        item).scale = item.scale ∧
     (handleMouseMoveItem mc ms matan2 InteractionMode.ROTATE sel ini dx dy px py
        item).zIndex = item.zIndex ∧
     (handleMouseMoveItem mc ms matan2 InteractionMode.ROTATE sel ini dx dy px py
        item).imgOffsetX = item.imgOffsetX ∧
     (handleMouseMoveItem mc ms matan2 InteractionMode.ROTATE sel ini dx dy px py
        item).imgOffsetY = item.imgOffsetY ∧
     (handleMouseMoveItem mc ms matan2 InteractionMode.ROTATE sel ini dx dy px py
        item).imgZoom = item.imgZoom ∧
     (handleMouseMoveItem mc ms matan2 InteractionMode.ROTATE sel ini dx dy px py
        item).backgroundColor = item.backgroundColor ∧
     (handleMouseMoveItem mc ms matan2 InteractionMode.ROTATE sel ini dx dy px py
        item).backgroundPadding = item.backgroundPadding) ∧
    ((handleMouseMoveItem mc ms matan2 InteractionMode.RESIZE sel ini dx dy px py
        item).id = item.id ∧
     (handleMouseMoveItem mc ms matan2 InteractionMode.RESIZE sel ini dx dy px py
        item).type = item.type ∧
     (handleMouseMoveItem mc ms matan2 InteractionMode.RESIZE sel ini dx dy px py
        item).x = item.x ∧
     (handleMouseMoveItem mc ms matan2 InteractionMode.RESIZE sel ini dx dy px py
        item).y = item.y ∧
     (handleMouseMoveItem mc ms matan2 InteractionMode.RESIZE sel ini dx dy px py
        item).width = item.width ∧
     (handleMouseMoveItem mc ms matan2 InteractionMode.RESIZE sel ini dx dy px py
        item).height = item.height ∧
     (handleMouseMoveItem mc ms matan2 InteractionMode.RESIZE sel ini dx dy px py
        item).rotation = item.rotation ∧
     (handleMouseMoveItem mc ms matan2 InteractionMode.RESIZE sel ini dx dy px py
        item).zIndex = item.zIndex ∧
     (handleMouseMoveItem mc ms matan2 InteractionMode.RESIZE sel ini dx dy px py
        item).imgOffsetX = item.imgOffsetX ∧
     (handleMouseMoveItem mc ms matan2 InteractionMode.RESIZE sel ini dx dy px py
        item).imgOffsetY = item.imgOffsetY ∧
     (handleMouseMoveItem mc ms matan2 InteractionMode.RESIZE sel ini dx dy px py
        item).imgZoom = item.imgZoom ∧
     (handleMouseMoveItem mc ms matan2 InteractionMode.RESIZE sel ini dx dy px py
        item).backgroundColor = item.backgroundColor ∧
     (handleMouseMoveItem mc ms matan2 InteractionMode.RESIZE sel ini dx dy px py
        item).backgroundPadding = item.backgroundPadding) ∧
    ((handleMouseMoveItem mc ms matan2 InteractionMode.CROP_PAN sel ini dx dy px py
        item).id = item.id ∧
     (handleMouseMoveItem mc ms matan2 InteractionMode.CROP_PAN sel ini dx dy px py
        item).type = item.type ∧
     (handleMouseMoveItem mc ms matan2 InteractionMode.CROP_PAN sel ini dx dy px py
        item).x = item.x ∧
     (handleMouseMoveItem mc ms matan2 InteractionMode.CROP_PAN sel ini dx dy px py
        item).y = item.y ∧
     (handleMouseMoveItem mc ms matan2 InteractionMode.CROP_PAN sel ini dx dy px py
        item).width = item.width ∧
     (handleMouseMoveItem mc ms matan2 InteractionMode.CROP_PAN sel ini dx dy px py
        item).height = item.height ∧
     (handleMouseMoveItem mc ms matan2 InteractionMode.CROP_PAN sel ini dx dy px py
        item).scale = item.scale ∧
     (handleMouseMoveItem mc ms matan2 InteractionMode.CROP_PAN sel ini dx dy px py
        item).rotation = item.rotation ∧
     (handleMouseMoveItem mc ms matan2 InteractionMode.CROP_PAN sel ini dx dy px py
        item).zIndex = item.zIndex ∧
     (handleMouseMoveItem mc ms matan2 InteractionMode.CROP_PAN sel ini dx dy px py
        item).imgZoom = item.imgZoom ∧
     (handleMouseMoveItem mc ms matan2 InteractionMode.CROP_PAN sel ini dx dy px py
        item).backgroundColor = item.backgroundColor ∧
     (handleMouseMoveItem mc ms matan2 InteractionMode.CROP_PAN sel ini dx dy px py
        item).backgroundPadding = item.backgroundPadding) ∧
    ((handleMouseMoveItem mc ms matan2 InteractionMode.CROP_BR sel ini dx dy px py
        item).id = item.id ∧
     (handleMouseMoveItem mc ms matan2 InteractionMode.CROP_BR sel ini dx dy px py
        item).type = item.type ∧
     (handleMouseMoveItem mc ms matan2 InteractionMode.CROP_BR sel ini dx dy px py
        item).x = item.x ∧
     (handleMouseMoveItem mc ms matan2 InteractionMode.CROP_BR sel ini dx dy px py
        item).y = item.y ∧
     (handleMouseMoveItem mc ms matan2 InteractionMode.CROP_BR sel ini dx dy px py
        item).scale = item.scale ∧
     (handleMouseMoveItem mc ms matan2 InteractionMode.CROP_BR sel ini dx dy px py
        item).rotation = item.rotation ∧
     (handleMouseMoveItem mc ms matan2 InteractionMode.CROP_BR sel ini dx dy px py
        item).zIndex = item.zIndex ∧
     (handleMouseMoveItem mc ms matan2 InteractionMode.CROP_BR sel ini dx dy px py
        item).imgZoom = item.imgZoom ∧
     (handleMouseMoveItem mc ms matan2 InteractionMode.CROP_BR sel ini dx dy px py
        item).backgroundColor = item.backgroundColor ∧
     (handleMouseMoveItem mc ms matan2 InteractionMode.CROP_BR sel ini dx dy px py
        item).backgroundPadding = item.backgroundPadding) := by
  refine ⟨rfl, by cases mode <;> rfl, by cases mode <;> rfl,
    fun hne => by cases mode <;> first | exact absurd rfl hne | rfl,
    fun hid => by simp [handleMouseMoveItem, hid], ?_, ?_, ?_, ?_, ?_⟩ <;>
  · by_cases hid : item.id = sel <;>
      simp [handleMouseMoveItem, hid]

/-- Closed instantiation of the frame conditions: a MOVE drag on item a with a
different selection b leaves the item untouched, and a MOVE drag with item a
selected keeps its rotation and scale. -/
theorem handleMouseMove_frame_conditions_witness :
    handleMouseMoveItem (fun _ => 0) (fun _ => 0) (fun _ _ => 0)
      InteractionMode.MOVE "b" dragInit0 1 2 3 4 itemA = itemA ∧
    (handleMouseMoveItem (fun _ => 0) (fun _ => 0) (fun _ _ => 0)
      InteractionMode.MOVE "a" dragInit0 1 2 3 4 itemA).rotation = itemA.rotation := by
  constructor
  · exact (handleMouseMove_frame_conditions (fun _ => 0) (fun _ => 0) (fun _ _ => 0)
      InteractionMode.MOVE "b" dragInit0 1 2 3 4 itemA (0, 0) (0, 0) []).2.2.2.2.1
      (by decide)
  · exact (handleMouseMove_frame_conditions (fun _ => 0) (fun _ => 0) (fun _ _ => 0)
      InteractionMode.MOVE "a" dragInit0 1 2 3 4 itemA (0, 0) (0, 0) []).2.2.2.2.2.1.2.2.2.2.2.1

/-- C8 counterexample: in the collage editor the time value driving effect
animations is wall-clock seconds reduced modulo 3, so at clock 4000 ms the
driving value is 1, not the elapsed 4 seconds: the time value IS reset by a
3-second wrap, refuting the claim that it is never gated, capped or reset in
either renderer. -/
theorem collageEffectTime_reset_counterexample :
    collageEffectTime 4000 = 1 ∧
    (4000 : ℚ) / 1000 = 4 ∧
    collageEffectTime 4000 ≠ (4000 : ℚ) / 1000 := by
  refine ⟨?_, by norm_num, ?_⟩ <;>
    norm_num [collageEffectTime, jsMod]

/-- C8 amended: decorations animate indefinitely, but the two renderers drive
them differently: the timeline renderer passes the uncapped local slide time
in seconds, while the collage editor passes wall-clock seconds modulo 3 — a
value that wraps with period 3 s (so it is periodically reset) yet always lies
in [0, 3) and never halts the animation. -/
theorem effectTime_amended (ms2 now : ℚ) :
    previewEffectTime ms2 = ms2 / 1000 ∧
    collageEffectTime (now + 3000) = collageEffectTime now ∧
    (0 ≤ now → 0 ≤ collageEffectTime now ∧ collageEffectTime now < 3) := by
  refine ⟨rfl, ?_, ?_⟩
  · unfold collageEffectTime jsMod
    have h1 : (now + 3000) / 1000 / 3 = now / 1000 / 3 + 1 := by ring
    rw [h1]
    have h3 : ⌊now / 1000 / 3 + (1 : ℚ)⌋ = ⌊now / 1000 / 3⌋ + 1 := by
      exact_mod_cast Int.floor_add_int (now / 1000 / 3) 1
    rw [h3]
    push_cast
    ring
  · intro _
    unfold collageEffectTime jsMod
    constructor
    · have hle : (⌊now / 1000 / 3⌋ : ℚ) ≤ now / 1000 / 3 := Int.floor_le _
      nlinarith
    · have hlt : now / 1000 / 3 < ⌊now / 1000 / 3⌋ + 1 := Int.lt_floor_add_one _
      nlinarith

/-- Closed instantiation of the amended effect-clock behavior at concrete
clock values. -/
theorem effectTime_amended_witness :
    previewEffectTime 4500 = 4500 / 1000 ∧
    collageEffectTime (1000 + 3000) = collageEffectTime 1000 ∧
    (0 ≤ collageEffectTime 1000 ∧ collageEffectTime 1000 < 3) :=
  ⟨(effectTime_amended 4500 1000).1, (effectTime_amended 4500 1000).2.1,
   (effectTime_amended 4500 1000).2.2 (by norm_num)⟩

/-- C9 counterexample: a slide whose file is present but fails to decode
(missing flag false, asset resolved to null by onerror) is silently skipped by
renderMedia — no placeholder panel is drawn for it, refuting the claim that a
failed decode renders the placeholder. -/
theorem renderMedia_decode_failure_skipped :
    renderMediaOutcome (loadResourceResult decodeFailItem false)
      (some decodeFailItem) = RenderOutcome.skipped ∧
    renderMediaOutcome (loadResourceResult decodeFailItem false)
      (some decodeFailItem) ≠
      RenderOutcome.placeholder (decodeFailItem.fileName.getD "Unknown") := by
  refine ⟨rfl, by decide⟩

/-- C9 amended: for a non-collage slide, a missing-flagged asset renders the
placeholder panel with the file name, a decode failure without the missing
flag is silently skipped, and a loaded asset is drawn; in every case the
per-slide render decision returns normally (it never throws), so the other
slides of the frame, whose decisions depend only on their own data, render as
usual. -/
theorem renderMedia_placeholder_spec (m : MediaItem) (decodeOk : Bool)
    (h : m.hasCollageData = false) :
    (m.missing = true →
      renderMediaOutcome (loadResourceResult m decodeOk) (some m) =
        RenderOutcome.placeholder (m.fileName.getD "Unknown")) ∧
    (m.missing = false → decodeOk = false →
      renderMediaOutcome (loadResourceResult m decodeOk) (some m) =
        RenderOutcome.skipped) ∧
    (m.missing = false → decodeOk = true →
      renderMediaOutcome (loadResourceResult m decodeOk) (some m) =
        RenderOutcome.drawn) := by
  refine ⟨?_, ?_, ?_⟩ <;>
    · intros
      simp [renderMediaOutcome, loadResourceResult, *]

/-- Closed instantiation: the missing-flagged slide renders its placeholder
panel, applying the amended placeholder theorem at the concrete slide. -/
theorem renderMedia_placeholder_spec_witness :
    renderMediaOutcome (loadResourceResult missingItem true) (some missingItem) =
      RenderOutcome.placeholder "clip.mp4" :=
  (renderMedia_placeholder_spec missingItem true rfl).1 rfl

/-- C5: for the timeline with one 5 s image slide followed by one 5 s video
slide with original audio enabled (the video spans t = 5 s to 10 s), the
ducking gain envelope ramps linearly from 1 to 0.2 over [5, 5.3], holds 0.2
throughout [5.3, 9.7], and ramps linearly from 0.2 back to 1 over [9.7, 10]. -/
theorem setupAudioGraph_ducking_envelope (t : ℚ) :
    (5 ≤ t → t ≤ 53 / 10 →
      duckingGainAt 5 c5MediaList t = 1 + (t - 5) * ((1 / 5 - 1) / (3 / 10))) ∧
    (53 / 10 ≤ t → t ≤ 97 / 10 → duckingGainAt 5 c5MediaList t = 1 / 5) ∧
    (97 / 10 ≤ t → t ≤ 10 →
      duckingGainAt 5 c5MediaList t = 1 / 5 + (t - 97 / 10) * ((1 - 1 / 5) / (3 / 10))) := by
  have hev : duckingEvents 5 c5MediaList =
      [AutomationEvent.setValue 0 1, AutomationEvent.setValue 5 1,
       AutomationEvent.linearRamp (53 / 10) (1 / 5),
       AutomationEvent.setValue (97 / 10) (1 / 5),
       AutomationEvent.linearRamp 10 1] := by
    norm_num [duckingEvents, duckingEventsAux, c5MediaList, jsOr]
  refine ⟨?_, ?_, ?_⟩ <;>
    · intro h1 h2
      rw [duckingGainAt, hev]
      simp only [valueAt]
      split_ifs <;>
        first
          | (exfalso; linarith)
          | (field_simp <;> first | ring1 | linarith)

/-- Closed instantiation of the ducking envelope at one point of each phase:
mid-duck t = 7 gives 0.2, t = 5.2 on the way down gives 7/15, t = 9.9 on the
way back up gives 11/15. -/
theorem setupAudioGraph_ducking_envelope_witness :
    duckingGainAt 5 c5MediaList 7 = 1 / 5 ∧
    duckingGainAt 5 c5MediaList (26 / 5) = 7 / 15 ∧
    duckingGainAt 5 c5MediaList (99 / 10) = 11 / 15 := by
  refine ⟨(setupAudioGraph_ducking_envelope 7).2.1 (by norm_num) (by norm_num), ?_, ?_⟩
  · have h := (setupAudioGraph_ducking_envelope (26 / 5)).1 (by norm_num) (by norm_num)
    rw [h]; norm_num
  · have h := (setupAudioGraph_ducking_envelope (99 / 10)).2.2 (by norm_num) (by norm_num)
    rw [h]; norm_num

/-- Every iteration the background scheduling loop survives strictly shrinks
its termination measure: an unusable track shrinks the attempt budget (it only
recurses while the counter stays at 100 or below), a usable track shrinks the
remaining-duration component, whose weight dominates the budget. -/
theorem bgStep_measure_lt (buffers : List (Option ℚ)) (videoDuration : ℚ)
    (s s2 : BgState) (h : bgStep buffers videoDuration s = some s2) :
    bgMeasure videoDuration s2 < bgMeasure videoDuration s := by
  unfold bgStep at h
  by_cases hc : s.cursorTime < videoDuration
  · rw [if_pos hc] at h
    rcases hbuf : (buffers.get? (s.trackIndex % buffers.length)).join with _ | dur
    · simp only [hbuf] at h
      by_cases hcap : s.trackIndex + 1 > 100
      · simp [hcap] at h
      · rw [if_neg hcap] at h
        injection h with h2
        subst h2
        simp only [bgMeasure]
        omega
    · simp only [hbuf] at h
      by_cases hshort : dur < 1 / 10
      · rw [if_pos hshort] at h
        by_cases hcap : s.trackIndex + 1 > 100
        · simp [hcap] at h
        · rw [if_neg hcap] at h
          injection h with h2
          subst h2
          simp only [bgMeasure]
          omega
      · rw [if_neg hshort] at h
        injection h with h2
        subst h2
        simp only [bgMeasure]
        have hdur : 1 / 10 ≤ dur := le_of_not_lt hshort
        have hadv : 1 / 15 ≤ dur - min (1 / 2) (dur / 3) := by
          have := min_le_right (1 / 2 : ℚ) (dur / 3)
          linarith
        have hceil1 : 1 ≤ ⌈(videoDuration - s.cursorTime) * 15⌉ := by
          have : (0 : ℚ) < (videoDuration - s.cursorTime) * 15 := by linarith
          exact Int.ceil_pos.mpr this
        have hceil2 :
            ⌈(videoDuration - (s.cursorTime + (dur - min (1 / 2) (dur / 3)))) * 15⌉ ≤
              ⌈(videoDuration - s.cursorTime) * 15⌉ - 1 := by
          have hle :
              (videoDuration - (s.cursorTime + (dur - min (1 / 2) (dur / 3)))) * 15 ≤
                (videoDuration - s.cursorTime) * 15 - 1 := by nlinarith
          calc ⌈(videoDuration - (s.cursorTime + (dur - min (1 / 2) (dur / 3)))) * 15⌉
              ≤ ⌈(videoDuration - s.cursorTime) * 15 - 1⌉ := Int.ceil_le_ceil hle
            _ = ⌈(videoDuration - s.cursorTime) * 15⌉ - 1 := by
                exact_mod_cast Int.ceil_sub_int ((videoDuration - s.cursorTime) * 15) 1
        omega
  · rw [if_neg hc] at h
    exact absurd h (by simp)

/-- Reaching exit within a bounded number of iterations, by strong induction
on the measure. -/
theorem bgIterate_reaches_none (buffers : List (Option ℚ)) (videoDuration : ℚ) :
    ∀ (k : ℕ) (s : BgState), bgMeasure videoDuration s ≤ k →
      ∃ n, bgIterate buffers videoDuration n s = none := by
  intro k
  induction k with
  | zero =>
      intro s hs
      rcases hstep : bgStep buffers videoDuration s with _ | s2
      · exact ⟨1, by simp [bgIterate, hstep]⟩
      · have := bgStep_measure_lt buffers videoDuration s s2 hstep
        omega
  | succ k ih =>
      intro s hs
      rcases hstep : bgStep buffers videoDuration s with _ | s2
      · exact ⟨1, by simp [bgIterate, hstep]⟩
      · have hlt := bgStep_measure_lt buffers videoDuration s s2 hstep
        obtain ⟨n, hn⟩ := ih s2 (by omega)
        exact ⟨n + 1, by simp [bgIterate, hstep, hn]⟩

/-- C6: the background-track scheduling loop always terminates.  A usable
track (duration at least 0.1) advances the cursor by its duration minus the
crossfade min(0.5, duration / 3), a strictly positive amount, and unusable
tracks only recurse while the bounded attempt counter allows; hence for every
finite buffer list (null entries and near-zero durations included) and every
finite total duration, iterating the loop from cursor 0, track 0 reaches the
exit after finitely many steps. -/
theorem setupAudioGraph_bg_scheduling_terminates :
    (∀ dur : ℚ, 1 / 10 ≤ dur → 0 < dur - min (1 / 2) (dur / 3)) ∧
    (∀ (buffers : List (Option ℚ)) (videoDuration : ℚ) (s : BgState) (dur : ℚ),
      (buffers.get? (s.trackIndex % buffers.length)).join = some dur →
      ¬dur < 1 / 10 → s.cursorTime < videoDuration →
      bgStep buffers videoDuration s =
        some ⟨s.cursorTime + (dur - min (1 / 2) (dur / 3)), s.trackIndex + 1⟩) ∧
    (∀ (buffers : List (Option ℚ)) (videoDuration : ℚ),
      ∃ n, bgIterate buffers videoDuration n ⟨0, 0⟩ = none) := by
  refine ⟨?_, ?_, ?_⟩
  · intro dur hdur
    have := min_le_right (1 / 2 : ℚ) (dur / 3)
    linarith
  · intro buffers videoDuration s dur hbuf hshort hc
    unfold bgStep
    rw [if_pos hc, hbuf]
    dsimp only
    rw [if_neg hshort]
  · intro buffers videoDuration
    exact bgIterate_reaches_none buffers videoDuration
      (bgMeasure videoDuration ⟨0, 0⟩) ⟨0, 0⟩ le_rfl

/-- Closed instantiation: the positive advance at duration 1 and loop exit for
a one-track playlist over a 2 s video. -/
theorem setupAudioGraph_bg_scheduling_terminates_witness :
    (0 : ℚ) < 1 - min (1 / 2) (1 / 3) ∧
    ∃ n, bgIterate [some 1] 2 n ⟨0, 0⟩ = none :=
  ⟨setupAudioGraph_bg_scheduling_terminates.1 1 (by norm_num),
   setupAudioGraph_bg_scheduling_terminates.2.2 [some 1] 2⟩

/-- The switch bodies of the two decoration-drawing copies agree for every
animation kind, size, time and interpretation of the host primitives. -/
theorem effectSwitch_eq (msin : ℚ → ℚ) (mpi : ℚ) (randT randB : ℕ → ℚ)
    (kind : AnimationType) (w h t : ℚ) :
    drawFrameEffectSwitch msin mpi randT randB kind w h t =
      drawEffectSwitch msin mpi randT randB kind w h t := by
  cases kind <;> rfl

/-- C7 counterexample: at the REC_FRAME decoration with a 100 by 100 box at
time 0 (any interpretation of sin, pi and the jitter), the op sequence of the
timeline renderer drawEffect differs from that of the collage editor effect
branch — drawEffect additionally sets textAlign center and textBaseline middle
before the shared style setup, so the REC label renders differently. -/
theorem drawEffect_ops_differ :
    drawEffectOps (fun _ => 0) 0 (fun _ => 0) (fun _ => 0) AnimationType.REC_FRAME
        0 0 100 100 1 0 0 ≠
      drawFrameEffectOps (fun _ => 0) 0 (fun _ => 0) (fun _ => 0)
        AnimationType.REC_FRAME 0 0 100 100 1 0 0 := by
  intro hcontra
  have hlen := congrArg List.length hcontra
  norm_num [drawEffectOps, drawFrameEffectOps, drawEffectSwitch,
    drawFrameEffectSwitch] at hlen

/-- C7 amended: the two decoration-drawing copies issue the same sequence of
drawing operations for every supported animation kind, box, transform, time
and jitter draw, except that the timeline renderer drawEffect inserts two
extra state operations — textAlign center and textBaseline middle — right
after the geometric transform (positions 5 and 6); removing those two
operations makes the sequences identical. -/
theorem drawEffect_matches_modulo_textAlign (msin : ℚ → ℚ) (mpi : ℚ)
    (randT randB : ℕ → ℚ) (kind : AnimationType)
    (x y w h scale rotation t : ℚ) :
    drawFrameEffectOps msin mpi randT randB kind x y w h scale rotation t =
      (drawEffectOps msin mpi randT randB kind x y w h scale rotation t).take 5 ++
        (drawEffectOps msin mpi randT randB kind x y w h scale rotation t).drop 7 := by
  have hsw := effectSwitch_eq msin mpi randT randB kind w h t
  simp only [drawFrameEffectOps, drawEffectOps, hsw, List.take_succ_cons,
    List.take_zero, List.drop_succ_cons, List.drop_zero, List.cons_append,
    List.nil_append, List.cons.injEq, CanvasOp.translate.injEq, and_true,
    true_and]
  norm_num
  constructor
  · constructor <;> ring
  · constructor <;> ring
